import Mathlib

set_option maxRecDepth 100000

/-!
Verification development for the multi-branch CI/CD pipeline repository.

The two Lambda modules under `cdk_pipelines_multi_branch/cicd/code/` are
shallowly embedded:

* `github_webhook_handler.py` — secret cache, HMAC-SHA256 signature
  validation, GitHub event normalization, EventBridge publication, and the
  top-level API-Gateway handler;
* `destroy_branch.py` — the branch-decommissioning handler and its ordered
  CodeBuild call sequence.

Python strings are modelled as `List Char`, byte strings as `List Nat`
(each element < 256), machine words as `Nat` reduced mod 2^32 where the
algorithm requires it.  External AWS calls are modelled as recorded effects
plus a success oracle; exceptions as `Except PyExc`.
-/

/-- Python `str` is modelled as a list of characters. -/
abbrev Str := List Char

/-- Convert a Lean string literal to the `Str` model. -/
def strL (s : String) : Str := s.toList

/-- Exceptions distinguished by the handlers' `except` clauses. -/
inductive PyExc where
  /-- `json.JSONDecodeError` — caught separately by the webhook handler. -/
  | jsonDecodeError
  /-- `TypeError` — e.g. membership test on a non-container, or
      `hmac.compare_digest` on a non-ASCII `str`. -/
  | typeError
  /-- `AttributeError` — e.g. `.get` on a non-dict. -/
  | attrError
  /-- any exception raised by an AWS client call. -/
  | clientError
  /-- failure fetching the webhook secret. -/
  | secretsError
deriving DecidableEq, Repr

/-- Dictionary lookup with a default, Python `d.get(k, default)` for a
string-valued dict (request headers). -/
def hget (hs : List (Str × Str)) (k : Str) (dflt : Str) : Str :=
  match hs.find? (fun kv => kv.1 = k) with
  | some kv => kv.2
  | none => dflt

/-- Does `p` occur as a contiguous sublist of `s`?  Python `p in s` for
strings. -/
def occursIn (p : Str) : Str → Bool
  | [] => p.isPrefixOf []
  | c :: cs => p.isPrefixOf (c :: cs) || occursIn p cs

/-- One step of Python `str.replace`, fuelled so that it reduces in the
kernel: at each position, if `p` matches, emit `r` and skip `p.length`
characters, else keep the character.  `fuel` bounds the recursion; the
wrapper passes `s.length`, which always suffices. -/
def replaceAllGo (p r : Str) : Nat → Str → Str
  | _, [] => []
  | 0, s => s
  | fuel + 1, c :: cs =>
    if p ≠ [] && p.isPrefixOf (c :: cs) then
      r ++ replaceAllGo p r fuel ((c :: cs).drop p.length)
    else
      c :: replaceAllGo p r fuel cs

/-- Python `s.replace(p, r)` for non-empty `p`: replaces every
non-overlapping occurrence, scanning left to right. -/
def replaceAll (p r s : Str) : Str := replaceAllGo p r s.length s

/-- Flip bit `b` of the character at index `i` (identity when the flipped
code point is not a valid `Char`). -/
def flipCharBit (b : Nat) (c : Char) : Char := Char.ofNat (c.toNat ^^^ (1 <<< b))

/-- Flip one bit of one character of a string. -/
def flipStrBit (i b : Nat) : Str → Str
  | [] => []
  | c :: cs => if i = 0 then flipCharBit b c :: cs else c :: flipStrBit (i - 1) b cs

/-- Is every character ASCII?  (`hmac.compare_digest` accepts `str`
arguments only when both are pure ASCII.) -/
def asciiStr (s : Str) : Bool := s.all (fun c => decide (c.toNat < 128))

/-- UTF-8 encoding of a single character, Python `chr.encode('utf-8')`. -/
def utf8EncodeChar (c : Char) : List Nat :=
  let n := c.toNat
  if n < 0x80 then [n]
  else if n < 0x800 then [0xC0 + n / 64, 0x80 + n % 64]
  else if n < 0x10000 then [0xE0 + n / 4096, 0x80 + (n / 64) % 64, 0x80 + n % 64]
  else [0xF0 + n / 262144, 0x80 + (n / 4096) % 64, 0x80 + (n / 64) % 64, 0x80 + n % 64]

/-- Python `s.encode('utf-8')`: the byte encoding of a string. -/
def utf8Encode (s : Str) : List Nat := (s.map utf8EncodeChar).flatten

/-- Strict UTF-8 decoding (Python `bytes.decode('utf-8')`), fuelled for
kernel reduction; `none` models `UnicodeDecodeError`. -/
def utf8DecodeGo : Nat → List Nat → Option Str
  | _, [] => some []
  | 0, _ :: _ => none
  | fuel + 1, b :: bs =>
    if b < 0x80 then
      (utf8DecodeGo fuel bs).map (fun t => Char.ofNat b :: t)
    else if 0xC2 ≤ b ∧ b ≤ 0xDF then
      match bs with
      | b1 :: bs' =>
        if 0x80 ≤ b1 ∧ b1 ≤ 0xBF then
          (utf8DecodeGo fuel bs').map (fun t => Char.ofNat ((b - 0xC0) * 64 + (b1 - 0x80)) :: t)
        else none
      | _ => none
    else if 0xE0 ≤ b ∧ b ≤ 0xEF then
      match bs with
      | b1 :: b2 :: bs' =>
        let lo1 := if b = 0xE0 then 0xA0 else 0x80
        let hi1 := if b = 0xED then 0x9F else 0xBF
        if (lo1 ≤ b1 ∧ b1 ≤ hi1) ∧ (0x80 ≤ b2 ∧ b2 ≤ 0xBF) then
          (utf8DecodeGo fuel bs').map
            (fun t => Char.ofNat ((b - 0xE0) * 4096 + (b1 - 0x80) * 64 + (b2 - 0x80)) :: t)
        else none
      | _ => none
    else if 0xF0 ≤ b ∧ b ≤ 0xF4 then
      match bs with
      | b1 :: b2 :: b3 :: bs' =>
        let lo1 := if b = 0xF0 then 0x90 else 0x80
        let hi1 := if b = 0xF4 then 0x8F else 0xBF
        if (lo1 ≤ b1 ∧ b1 ≤ hi1) ∧ (0x80 ≤ b2 ∧ b2 ≤ 0xBF) ∧ (0x80 ≤ b3 ∧ b3 ≤ 0xBF) then
          (utf8DecodeGo fuel bs').map
            (fun t => Char.ofNat ((b - 0xF0) * 262144 + (b1 - 0x80) * 4096 +
                                  (b2 - 0x80) * 64 + (b3 - 0x80)) :: t)
        else none
      | _ => none
    else none

/-- Strict UTF-8 decoding of a byte list. -/
def utf8Decode (bs : List Nat) : Option Str := utf8DecodeGo bs.length bs

/-- Value of a base64 alphabet character, `none` for non-alphabet input. -/
def b64Val (c : Char) : Option Nat :=
  let n := c.toNat
  if 65 ≤ n ∧ n ≤ 90 then some (n - 65)
  else if 97 ≤ n ∧ n ≤ 122 then some (n - 97 + 26)
  else if 48 ≤ n ∧ n ≤ 57 then some (n - 48 + 52)
  else if c = '+' then some 62
  else if c = '/' then some 63
  else none

/-- Decode a run of base64 data values (already stripped of padding) into
bytes; a trailing group of 2 values yields 1 byte, of 3 yields 2 bytes. -/
def b64Groups : List Nat → List Nat
  | a :: b :: c :: d :: rest =>
    (a * 4 + b / 16) :: ((b % 16) * 16 + c / 4) :: ((c % 4) * 64 + d) :: b64Groups rest
  | [a, b] => [a * 4 + b / 16]
  | [a, b, c] => [a * 4 + b / 16, (b % 16) * 16 + c / 4]
  | _ => []

/-- Python `base64.b64decode(s)` with the default `validate=False`:
characters outside the alphabet and `'='` are discarded; then the count of
data characters must not be 1 more than a multiple of 4, and data plus
padding must fill whole groups of 4 (`binascii.Error` → `none`).  `'='` is
treated as padding wherever it occurs (a simplification of binascii's
positional rules; no claim depends on misplaced padding). -/
def b64decode (s : Str) : Option (List Nat) :=
  if ¬ asciiStr s then none
  else
    let kept := s.filter (fun c => (b64Val c).isSome || c = '=')
    let data := (kept.filter (fun c => (b64Val c).isSome)).filterMap b64Val
    let pads := (kept.filter (fun c => c = '=')).length
    if data.length % 4 = 1 then none
    else if (data.length + pads) % 4 ≠ 0 then none
    else some (b64Groups data)

/-- The sixteen lowercase hex digits. -/
def hexTable : Str := strL "0123456789abcdef"

/-- Lowercase hex digit of a nibble. -/
def hexDig (n : Nat) : Char := hexTable.getD n '0'

/-- Lowercase hex string of a byte list, Python `.hexdigest()`. -/
def hexStr (bs : List Nat) : Str := (bs.map (fun b => [hexDig (b / 16), hexDig (b % 16)])).flatten

/-! ### SHA-256 and HMAC (the `hashlib` / `hmac` library calls) -/

/-- Truncation to a 32-bit word. -/
def w32 (n : Nat) : Nat := n % 4294967296

/-- Right rotation of a 32-bit word. -/
def rotr (b n : Nat) : Nat := w32 ((n >>> b) ||| (n <<< (32 - b)))

/-- SHA-256 Σ₀. -/
def bsig0 (x : Nat) : Nat := rotr 2 x ^^^ rotr 13 x ^^^ rotr 22 x

/-- SHA-256 Σ₁. -/
def bsig1 (x : Nat) : Nat := rotr 6 x ^^^ rotr 11 x ^^^ rotr 25 x

/-- SHA-256 σ₀. -/
def ssig0 (x : Nat) : Nat := rotr 7 x ^^^ rotr 18 x ^^^ (x >>> 3)

/-- SHA-256 σ₁. -/
def ssig1 (x : Nat) : Nat := rotr 17 x ^^^ rotr 19 x ^^^ (x >>> 10)

/-- SHA-256 choice function. -/
def chf (x y z : Nat) : Nat := (x &&& y) ^^^ ((x ^^^ 0xFFFFFFFF) &&& z)

/-- SHA-256 majority function. -/
def majf (x y z : Nat) : Nat := (x &&& y) ^^^ (x &&& z) ^^^ (y &&& z)

/-- The 64 SHA-256 round constants (FIPS 180-4 §4.2.2, written in
decimal). -/
def sha256K : List Nat :=
  [1116352408, 1899447441, 3049323471, 3921009573, 961987163,
   1508970993, 2453635748, 2870763221, 3624381080, 310598401,
   607225278, 1426881987, 1925078388, 2162078206, 2614888103,
   3248222580, 3835390401, 4022224774, 264347078, 604807628,
   770255983, 1249150122, 1555081692, 1996064986, 2554220882,
   2821834349, 2952996808, 3210313671, 3336571891, 3584528711,
   113926993, 338241895, 666307205, 773529912, 1294757372,
   1396182291, 1695183700, 1986661051, 2177026350, 2456956037,
   2730485921, 2820302411, 3259730800, 3345764771, 3516065817,
   3600352804, 4094571909, 275423344, 430227734, 506948616,
   659060556, 883997877, 958139571, 1322822218, 1537002063,
   1747873779, 1955562222, 2024104815, 2227730452, 2361852424,
   2428436474, 2756734187, 3204031479, 3329325298]

/-- The eight-word SHA-256 working state. -/
structure Hash8 where
  a : Nat
  b : Nat
  c : Nat
  d : Nat
  e : Nat
  f : Nat
  g : Nat
  h : Nat
deriving DecidableEq, Repr

/-- SHA-256 initial hash value (FIPS 180-4 §5.3.3, written in decimal). -/
def sha256H0 : Hash8 :=
  ⟨1779033703, 3144134277, 1013904242, 2773480762,
   1359893119, 2600822924, 528734635, 1541459225⟩

/-- Group bytes big-endian into 32-bit words. -/
def toWords : List Nat → List Nat
  | a :: b :: c :: d :: rest => (a * 16777216 + b * 65536 + c * 256 + d) :: toWords rest
  | _ => []

/-- Extend a 16-word schedule by `n` further words. -/
def extendW : Nat → List Nat → List Nat
  | 0, ws => ws
  | n + 1, ws =>
    let l := ws.length
    extendW n (ws ++ [w32 (ssig1 (ws.getD (l - 2) 0) + ws.getD (l - 7) 0 +
                           ssig0 (ws.getD (l - 15) 0) + ws.getD (l - 16) 0)])

/-- One SHA-256 round, for one `(constant, schedule-word)` pair. -/
def sha256Round (st : Hash8) (kw : Nat × Nat) : Hash8 :=
  let t1 := w32 (st.h + bsig1 st.e + chf st.e st.f st.g + kw.1 + kw.2)
  let t2 := w32 (bsig0 st.a + majf st.a st.b st.c)
  ⟨w32 (t1 + t2), st.a, st.b, st.c, w32 (st.d + t1), st.e, st.f, st.g⟩

/-- Compress one 64-byte block into the running hash. -/
def sha256Block (h : Hash8) (block : List Nat) : Hash8 :=
  let ws := extendW 48 (toWords block)
  let f := (sha256K.zip ws).foldl sha256Round h
  ⟨w32 (h.a + f.a), w32 (h.b + f.b), w32 (h.c + f.c), w32 (h.d + f.d),
   w32 (h.e + f.e), w32 (h.f + f.f), w32 (h.g + f.g), w32 (h.h + f.h)⟩

/-- SHA-256 message padding: `0x80`, zeros to 56 mod 64, then the bit
length as eight big-endian bytes. -/
def sha256Pad (msg : List Nat) : List Nat :=
  let len := msg.length
  let zeros := (119 - len % 64) % 64
  let bits := len * 8
  msg ++ [0x80] ++ List.replicate zeros 0 ++
    [(bits / 72057594037927936) % 256, (bits / 281474976710656) % 256,
     (bits / 1099511627776) % 256, (bits / 4294967296) % 256,
     (bits / 16777216) % 256, (bits / 65536) % 256, (bits / 256) % 256, bits % 256]

/-- Split into 64-byte blocks (fuelled; the wrapper passes the length). -/
def chunks64 : Nat → List Nat → List (List Nat)
  | _, [] => []
  | 0, _ :: _ => []
  | fuel + 1, l => l.take 64 :: chunks64 fuel (l.drop 64)

/-- Big-endian bytes of a 32-bit word. -/
def wordBytes (w : Nat) : List Nat :=
  [(w / 16777216) % 256, (w / 65536) % 256, (w / 256) % 256, w % 256]

/-- SHA-256 of a byte list, as 32 bytes (`hashlib.sha256(msg).digest()`). -/
def sha256 (msg : List Nat) : List Nat :=
  let padded := sha256Pad msg
  let h := (chunks64 padded.length padded).foldl sha256Block sha256H0
  wordBytes h.a ++ wordBytes h.b ++ wordBytes h.c ++ wordBytes h.d ++
  wordBytes h.e ++ wordBytes h.f ++ wordBytes h.g ++ wordBytes h.h

/-- HMAC-SHA256 (`hmac.new(key, msg, hashlib.sha256).digest()`): key hashed
if longer than the 64-byte block, zero-padded to the block size, then the
nested inner/outer hashes with the `0x36`/`0x5c` pads. -/
def hmacSha256 (key msg : List Nat) : List Nat :=
  let k0 := if 64 < key.length then sha256 key else key
  let k1 := k0 ++ List.replicate (64 - k0.length) 0
  sha256 ((k1.map (fun b => b ^^^ 0x5c)) ++ sha256 ((k1.map (fun b => b ^^^ 0x36)) ++ msg))

/-! ### JSON values and `json.loads` -/

/-- JSON values as produced by `json.loads`.  Numbers are restricted to
integers: no claim involves fractional or exponent literals, and the
parser below rejects them. -/
inductive Json where
  | null
  | bool (b : Bool)
  | num (n : Int)
  | str (s : Str)
  | arr (xs : List Json)
  | obj (kvs : List (Str × Json))

/-- Lookup in a JSON object's key/value list, Python `d.get(k)` (first
matching key). -/
def jlookup (kvs : List (Str × Json)) (k : Str) : Option Json :=
  match kvs.find? (fun kv => kv.1 = k) with
  | some kv => some kv.2
  | none => none

/-- Python truthiness of a JSON value: `None`, `False`, `0`, `""`, `[]`
and `{}` are falsy. -/
def pythonTruthy : Json → Bool
  | .null => false
  | .bool b => b
  | .num n => decide (n ≠ 0)
  | .str s => !s.isEmpty
  | .arr xs => !xs.isEmpty
  | .obj kvs => !kvs.isEmpty

/-- Python truthiness of `d.get(k)`: a missing key gives `None`, falsy. -/
def truthyOpt : Option Json → Bool
  | none => false
  | some j => pythonTruthy j

/-- Python `str()` of a JSON value, as used by f-string interpolation.
Scalars are rendered exactly as Python renders them; the rendering of
lists and dicts is abbreviated (no claim interpolates a container). -/
def pyStr : Json → Str
  | .str s => s
  | .num n => if n < 0 then '-' :: Nat.toDigits 10 n.natAbs else Nat.toDigits 10 n.natAbs
  | .bool true => strL "True"
  | .bool false => strL "False"
  | .null => strL "None"
  | .arr _ => strL "<list>"
  | .obj _ => strL "<dict>"

/-- Whitespace skipped by the JSON parser. -/
def jsonWs (c : Char) : Bool := c = ' ' || c = '\t' || c = '\n' || c = '\r'

/-- Drop leading JSON whitespace. -/
def skipWs (s : Str) : Str := s.dropWhile jsonWs

/-- Parse the body of a JSON string literal after the opening quote:
returns the decoded characters and the remainder after the closing quote.
Control characters are rejected; `\uXXXX` escapes are not supported (no
claim uses them). -/
def parseJStr : Str → Option (Str × Str)
  | [] => none
  | c :: cs =>
    if c = '"' then some ([], cs)
    else if c = '\\' then
      match cs with
      | [] => none
      | e :: cs' =>
        let dec : Option Char :=
          if e = '"' then some '"'
          else if e = '\\' then some '\\'
          else if e = '/' then some '/'
          else if e = 'b' then some (Char.ofNat 8)
          else if e = 'f' then some (Char.ofNat 12)
          else if e = 'n' then some '\n'
          else if e = 'r' then some '\r'
          else if e = 't' then some '\t'
          else none
        match dec with
        | none => none
        | some d => (parseJStr cs').map (fun r => (d :: r.1, r.2))
    else if c.toNat < 32 then none
    else (parseJStr cs).map (fun r => (c :: r.1, r.2))

/-- Is `c` an ASCII digit? -/
def isDigitC (c : Char) : Bool := 48 ≤ c.toNat && c.toNat ≤ 57

/-- Parse a run of digits into a natural number (most significant first). -/
def digitsVal (ds : Str) : Nat := ds.foldl (fun acc c => acc * 10 + (c.toNat - 48)) 0

/-- Parse a JSON integer literal; fractional and exponent forms are
rejected (see `Json`). -/
def parseJNum (s : Str) : Option (Json × Str) :=
  let (neg, s1) := match s with
                   | '-' :: t => (true, t)
                   | t => (false, t)
  let ds := s1.takeWhile isDigitC
  let rest := s1.dropWhile isDigitC
  if ds = [] then none
  else
    match rest with
    | c :: _ =>
      if c = '.' || c = 'e' || c = 'E' then none
      else some (.num (if neg then -(digitsVal ds : Int) else (digitsVal ds : Int)), rest)
    | [] => some (.num (if neg then -(digitsVal ds : Int) else (digitsVal ds : Int)), rest)

mutual

/-- Fuelled recursive-descent JSON value parser.  `parseJVal` parses one
value, `parseJElems` the tail of an array, `parseJMembers` the tail of an
object. -/
def parseJVal : Nat → Str → Option (Json × Str)
  | 0, _ => none
  | fuel + 1, s =>
    match skipWs s with
    | [] => none
    | c :: cs =>
      if c = '"' then (parseJStr cs).map (fun r => (.str r.1, r.2))
      else if c = 'n' then
        if (strL "ull").isPrefixOf cs then some (.null, cs.drop 3) else none
      else if c = 't' then
        if (strL "rue").isPrefixOf cs then some (.bool true, cs.drop 3) else none
      else if c = 'f' then
        if (strL "alse").isPrefixOf cs then some (.bool false, cs.drop 4) else none
      else if c = '[' then
        match skipWs cs with
        | ']' :: rest => some (.arr [], rest)
        | _ => (parseJElems fuel cs).map (fun r => (.arr r.1, r.2))
      else if c = Char.ofNat 123 then
        match skipWs cs with
        | r :: rest => if r = Char.ofNat 125 then some (.obj [], rest)
                       else (parseJMembers fuel cs).map (fun r => (.obj r.1, r.2))
        | [] => none
      else parseJNum (c :: cs)

/-- Parse one or more comma-separated array elements and the closing `]`. -/
def parseJElems : Nat → Str → Option (List Json × Str)
  | 0, _ => none
  | fuel + 1, s =>
    match parseJVal fuel s with
    | none => none
    | some (v, rest) =>
      match skipWs rest with
      | ',' :: rest' => (parseJElems fuel rest').map (fun r => (v :: r.1, r.2))
      | ']' :: rest' => some ([v], rest')
      | _ => none

/-- Parse one or more comma-separated object members and the closing brace. -/
def parseJMembers : Nat → Str → Option (List (Str × Json) × Str)
  | 0, _ => none
  | fuel + 1, s =>
    match skipWs s with
    | q :: cs =>
      if q = '"' then
        match parseJStr cs with
        | none => none
        | some (k, rest) =>
          match skipWs rest with
          | ':' :: rest' =>
            match parseJVal fuel rest' with
            | none => none
            | some (v, rest'') =>
              match skipWs rest'' with
              | ',' :: rest3 => (parseJMembers fuel rest3).map (fun r => ((k, v) :: r.1, r.2))
              | r :: rest3 => if r = Char.ofNat 125 then some ([(k, v)], rest3) else none
              | [] => none
          | _ => none
      else none
    | [] => none

end

/-- Python `json.loads`: parse one JSON value with nothing but whitespace
after it; `none` models `json.JSONDecodeError`. -/
def jsonLoads (s : Str) : Option Json :=
  match parseJVal (s.length + 1) s with
  | some (v, rest) => if skipWs rest = [] then some v else none
  | none => none

/-! ### `github_webhook_handler.py` -/

/-- `get_webhook_secret`: the module-level cache `_webhook_secret_cache`
is passed in explicitly; `fetch` is the Secrets Manager response for this
invocation.  Returns the result, the updated cache, and whether the secret
store was contacted.  A failed fetch is re-raised and leaves the cache
unset. -/
def get_webhook_secret (cache : Option Str) (fetch : Except Unit Str) :
    Except Unit Str × Option Str × Bool :=
  match cache with
  | some v => (.ok v, some v, false)
  | none =>
    match fetch with
    | .ok v => (.ok v, some v, true)
    | .error e => (.error e, none, true)

/-- `hmac.compare_digest` on two `str` arguments: constant-time equality,
but raises `TypeError` unless both strings are pure ASCII. -/
def pyCompareDigest (a b : Str) : Except PyExc Bool :=
  if asciiStr a && asciiStr b then .ok (decide (a = b)) else .error .typeError

/-- The `expected_signature` computed by `validate_github_signature`:
`'sha256=' + hmac.new(secret.encode('utf-8'), payload, hashlib.sha256).hexdigest()`. -/
def expectedSigStr (secret : Str) (payload : List Nat) : Str :=
  strL "sha256=" ++ hexStr (hmacSha256 (utf8Encode secret) payload)

/-- `validate_github_signature(payload, signature, secret)`: an empty or
non-`"sha256="`-prefixed signature is rejected at once; otherwise the
expected `"sha256=" + hex(HMAC_SHA256(secret, payload))` is compared with
`hmac.compare_digest` (which raises on non-ASCII input). -/
def validate_github_signature (payload : List Nat) (signature : Str) (secret : Str) :
    Except PyExc Bool :=
  if signature.isEmpty || !((strL "sha256=").isPrefixOf signature) then .ok false
  else pyCompareDigest (expectedSigStr secret payload) signature

/-- The normalized branch-event dictionary built by `parse_github_event`.
`referenceName` and the remaining fields keep the `Option Json` shape of
Python `dict.get` (a missing key gives `None`). -/
structure GhEvent where
  eventType : Str
  referenceType : Str
  referenceName : Option Json
  repositoryName : Option Json
  sender : Option Json
  timestamp : Option Json

/-- `body.get('repository', {}).get('full_name')` — raises
`AttributeError` when the `repository` value is not a dict. -/
def repoField (kvs : List (Str × Json)) (inner : Str) : Except PyExc (Option Json) :=
  match (jlookup kvs (strL "repository")).getD (.obj []) with
  | .obj rkvs => .ok (jlookup rkvs inner)
  | _ => .error .attrError

/-- `body.get('sender', {}).get('login')`. -/
def senderField (kvs : List (Str × Json)) : Except PyExc (Option Json) :=
  match (jlookup kvs (strL "sender")).getD (.obj []) with
  | .obj skvs => .ok (jlookup skvs (strL "login"))
  | _ => .error .attrError

/-- Build the event dict for the explicit `create`/`delete` shapes:
`referenceName = body.get('ref')` verbatim. -/
def mkExplicitEvent (et : Str) (kvs : List (Str × Json)) : Except PyExc (Option GhEvent) :=
  match repoField kvs (strL "full_name") with
  | .error e => .error e
  | .ok rn =>
    match senderField kvs with
    | .error e => .error e
    | .ok sd =>
      match repoField kvs (strL "updated_at") with
      | .error e => .error e
      | .ok ts =>
        .ok (some ⟨et, strL "branch", jlookup kvs (strL "ref"), rn, sd, ts⟩)

/-- Build the event dict for the push shape, with the branch name computed
by `ref.replace('refs/heads/', '')`. -/
def mkPushEvent (et : Str) (branchName : Str) (kvs : List (Str × Json)) :
    Except PyExc (Option GhEvent) :=
  match repoField kvs (strL "full_name") with
  | .error e => .error e
  | .ok rn =>
    match senderField kvs with
    | .error e => .error e
    | .ok sd =>
      match repoField kvs (strL "updated_at") with
      | .error e => .error e
      | .ok ts =>
        .ok (some ⟨et, strL "branch", some (.str branchName), rn, sd, ts⟩)

/-- The push branch of `parse_github_event`: `created` truthy (and `ref`
a `"refs/heads/"`-prefixed string) gives a create event, else `deleted`
truthy gives a delete event; `ref.startswith` on a non-string `ref`
raises `AttributeError`. -/
def pushBranch (kvs : List (Str × Json)) : Except PyExc (Option GhEvent) :=
  if truthyOpt (jlookup kvs (strL "created")) then
    match (jlookup kvs (strL "ref")).getD (.str []) with
    | .str ref =>
      if (strL "refs/heads/").isPrefixOf ref then
        mkPushEvent (strL "create") (replaceAll (strL "refs/heads/") [] ref) kvs
      else .ok none
    | _ => .error .attrError
  else if truthyOpt (jlookup kvs (strL "deleted")) then
    match (jlookup kvs (strL "ref")).getD (.str []) with
    | .str ref =>
      if (strL "refs/heads/").isPrefixOf ref then
        mkPushEvent (strL "delete") (replaceAll (strL "refs/heads/") [] ref) kvs
      else .ok none
    | _ => .error .attrError
  else .ok none

/-- `parse_github_event(headers, body)`: dispatch on the
`X-GitHub-Event` header over the three recognized shapes; any other shape
returns `None` (not a branch event).  Field access on a non-dict body
raises `AttributeError`. -/
def parse_github_event (headers : List (Str × Str)) (body : Json) :
    Except PyExc (Option GhEvent) :=
  let ghe := hget headers (strL "X-GitHub-Event") (hget headers (strL "x-github-event") [])
  if ghe = strL "create" then
    match body with
    | .obj kvs =>
      match jlookup kvs (strL "ref_type") with
      | some (.str rt) =>
        if rt = strL "branch" then mkExplicitEvent (strL "create") kvs else .ok none
      | _ => .ok none
    | _ => .error .attrError
  else if ghe = strL "delete" then
    match body with
    | .obj kvs =>
      match jlookup kvs (strL "ref_type") with
      | some (.str rt) =>
        if rt = strL "branch" then mkExplicitEvent (strL "delete") kvs else .ok none
      | _ => .ok none
    | _ => .error .attrError
  else if ghe = strL "push" then
    match body with
    | .obj kvs => pushBranch kvs
    | _ => .error .attrError
  else .ok none

/-- Python `str.capitalize()`: first character uppercased, the rest
lowercased. -/
def pyCapitalize : Str → Str
  | [] => []
  | c :: cs => c.toUpper :: cs.map Char.toLower

/-- The arguments of the `put_events` entry built by
`publish_to_eventbridge` (the JSON rendering of `Detail` is kept
structured). -/
structure PutEntry where
  source : Str
  detailType : Str
  detail : GhEvent
  busName : Str

/-- The entry `publish_to_eventbridge` sends for a normalized event. -/
def mkPutEntry (busName : Str) (ed : GhEvent) : PutEntry :=
  ⟨strL "github.webhook", strL "GitHub Branch " ++ pyCapitalize ed.eventType, ed, busName⟩

/-- The API-Gateway request fields the handler reads: `headers`, `body`
(absent means the `'{}'` default) and `isBase64Encoded`. -/
structure ApiEvent where
  headers : List (Str × Str)
  body : Option Str
  isBase64Encoded : Bool

/-- The handler's observable outcome: HTTP status and JSON body, the
EventBridge entries sent, and the secret cache after the call. -/
structure WebOut where
  statusCode : Nat
  respBody : Str
  trace : List PutEntry
  cacheOut : Option Str

/-- Body decoding step: `base64.b64decode(body).decode('utf-8')` when
`isBase64Encoded`, the raw body otherwise. -/
def decodeBody (isB64 : Bool) (s : Str) : Option Str :=
  if isB64 then (b64decode s).bind utf8Decode else some s

/-- The signature header: `X-Hub-Signature-256` with lowercase fallback,
defaulting to the empty string. -/
def sigHeader (headers : List (Str × Str)) : Str :=
  hget headers (strL "X-Hub-Signature-256") (hget headers (strL "x-hub-signature-256") [])

/-- `json.dumps({'message': m})`. -/
def msgBody (m : String) : Str := strL ("\x7b\"message\": \"" ++ m ++ "\"\x7d")

/-- The webhook Lambda `handler`: decode the body, fetch the secret
(cached), validate the signature (401 on mismatch), parse JSON (400 on
`JSONDecodeError`), normalize, publish; any other exception gives 500.
`fetch` is the Secrets Manager response, `pubOk` whether `put_events`
succeeds, `cache` the process-level secret cache before the call. -/
def webhook_handler (busName : Str) (fetch : Except Unit Str) (pubOk : Bool)
    (cache : Option Str) (ev : ApiEvent) : WebOut :=
  let bodyRaw := ev.body.getD (strL "\x7b\x7d")
  match decodeBody ev.isBase64Encoded bodyRaw with
  | none => ⟨500, msgBody "Internal server error", [], cache⟩
  | some bodyStr =>
    match get_webhook_secret cache fetch with
    | (.error _, cache', _) => ⟨500, msgBody "Internal server error", [], cache'⟩
    | (.ok secret, cache', _) =>
      match validate_github_signature (utf8Encode bodyStr) (sigHeader ev.headers) secret with
      | .error _ => ⟨500, msgBody "Internal server error", [], cache'⟩
      | .ok false => ⟨401, msgBody "Invalid signature", [], cache'⟩
      | .ok true =>
        match jsonLoads bodyStr with
        | none => ⟨400, msgBody "Invalid JSON", [], cache'⟩
        | some body =>
          match parse_github_event ev.headers body with
          | .error _ => ⟨500, msgBody "Internal server error", [], cache'⟩
          | .ok none => ⟨200, msgBody "Event received but not processed (not a branch event)", [], cache'⟩
          | .ok (some ed) =>
            if pubOk then
              ⟨200, msgBody "Event processed successfully", [mkPutEntry busName ed], cache'⟩
            else
              ⟨500, msgBody "Internal server error", [mkPutEntry busName ed], cache'⟩

/-! ### `destroy_branch.py` -/

/-- The module-level configuration of `destroy_branch.py` (environment
variables read at import time). -/
structure DestroyCfg where
  region : Str
  accountId : Str
  roleArn : Str
  bucket : Str
  cbNamePre : Str
  devStageName : Str

/-- The CodeBuild calls the decommissioner can issue, with the arguments
the claims observe. -/
inductive CBCall where
  | createProject (name : Str) (location : Str) (buildspec : Str)
  | startBuild (name : Str)
  | deleteProject (name : Str)
deriving DecidableEq

/-- The operation/name projection of a CodeBuild call ("which API, on
which project"). -/
def callOp : CBCall → Str × Str
  | .createProject n _ _ => (strL "create_project", n)
  | .startBuild n => (strL "start_build", n)
  | .deleteProject n => (strL "delete_project", n)

/-- `generate_build_spec(branch)`: the buildspec text with the branch and
configuration interpolated. -/
def generate_build_spec (cfg : DestroyCfg) (branch : Str) : Str :=
  strL "version: 0.2\nenv:\n  variables:\n    BRANCH: " ++ branch ++
  strL "\n    DEV_ACCOUNT_ID: " ++ cfg.accountId ++
  strL "\n    PROD_ACCOUNT_ID: " ++ cfg.accountId ++
  strL "\n    REGION: " ++ cfg.region ++
  strL "\nphases:\n  pre_build:\n    commands:\n      - npm install -g aws-cdk && pip install -r requirements.txt\n  build:\n    commands:\n      - cdk destroy cdk-pipelines-multi-branch-" ++ branch ++
  strL " --force\n      - aws cloudformation delete-stack --stack-name " ++ cfg.devStageName ++
  strL "-" ++ branch ++
  strL "\n      - aws s3 rm s3://" ++ cfg.bucket ++ strL "/" ++ branch ++ strL " --recursive"

/-- Python `'/' in repo_name if repo_name else False`: falsy values
short-circuit to `False`; membership then needs an iterable —
substring test on a string, element equality on a list, key equality on a
dict — and raises `TypeError` on a truthy number or `True`. -/
def slashInRepo (repo : Option Json) : Except PyExc Bool :=
  if !truthyOpt repo then .ok false
  else
    match repo with
    | some (.str s) => .ok (occursIn (strL "/") s)
    | some (.arr xs) => .ok (xs.any (fun j => match j with
                                              | .str s => decide (s = strL "/")
                                              | _ => false))
    | some (.obj kvs) => .ok (kvs.any (fun kv => decide (kv.1 = strL "/")))
    | _ => .error .typeError

/-- The `destroy_branch.py` Lambda `handler`.  `ok` is the success oracle
for CodeBuild calls: a call is recorded in the trace when issued, and a
`False` response models the client raising (the handler logs and
re-raises).  The module has no mutable state: the result is a pure
function of the configuration, the oracle and the event. -/
def destroy_branch_handler (cfg : DestroyCfg) (ok : CBCall → Bool) (event : Json) :
    Except PyExc Unit × List CBCall :=
  match event with
  | .obj ekvs =>
    match (jlookup ekvs (strL "detail")).getD (.obj []) with
    | .obj dkvs =>
      match jlookup dkvs (strL "referenceType") with
      | some (.str rt) =>
        if rt = strL "branch" then
          let branch := jlookup dkvs (strL "referenceName")
          let repo := jlookup dkvs (strL "repositoryName")
          if !truthyOpt branch then (.ok (), [])
          else
            match slashInRepo repo with
            | .error e => (.error e, [])
            | .ok _ =>
              let bname := pyStr ((branch).getD .null)
              let destroyName := cfg.cbNamePre ++ strL "-" ++ bname ++ strL "-destroy"
              let createName := cfg.cbNamePre ++ strL "-" ++ bname ++ strL "-create"
              let c1 := CBCall.createProject destroyName
                          (cfg.bucket ++ strL "/" ++ bname ++ strL "/" ++ createName ++ strL "/")
                          (generate_build_spec cfg bname)
              if ok c1 then
                let c2 := CBCall.startBuild destroyName
                if ok c2 then
                  let c3 := CBCall.deleteProject destroyName
                  if ok c3 then
                    let c4 := CBCall.deleteProject createName
                    if ok c4 then (.ok (), [c1, c2, c3, c4])
                    else (.error .clientError, [c1, c2, c3, c4])
                  else (.error .clientError, [c1, c2, c3])
                else (.error .clientError, [c1, c2])
              else (.error .clientError, [c1])
        else (.ok (), [])
      | _ => (.ok (), [])
    | _ => (.error .attrError, [])
  | _ => (.error .attrError, [])

/-- Modelled from the spec: the call sequence §4.5 and C2 claim for
decommissioning branch `B` — create, start and delete the destroy job,
then delete the create job, in that order (operation and project name). -/
def specDestroySeq (cfg : DestroyCfg) (B : Str) : List (Str × Str) :=
  [(strL "create_project", cfg.cbNamePre ++ strL "-" ++ B ++ strL "-destroy"),
   (strL "start_build", cfg.cbNamePre ++ strL "-" ++ B ++ strL "-destroy"),
   (strL "delete_project", cfg.cbNamePre ++ strL "-" ++ B ++ strL "-destroy"),
   (strL "delete_project", cfg.cbNamePre ++ strL "-" ++ B ++ strL "-create")]

/-! ### Library-call sanity checks (FIPS 180-4 / RFC 2202-style vectors) -/

/-- SHA-256 of the empty message matches the published digest. -/
theorem sha256_empty_vector :
    hexStr (sha256 []) =
      strL "e3b0c44298fc1c149afbf4c8996fb92427ae41e4649b934ca495991b7852b855" := by
  decide

/-- SHA-256 of `"abc"` matches the published digest. -/
theorem sha256_abc_vector :
    hexStr (sha256 (utf8Encode (strL "abc"))) =
      strL "ba7816bf8f01cfea414140de5dae2223b00361a396177a9cb410ff61f20015ad" := by
  decide

/-! ### Helper lemmas -/

/-- A list is a `isPrefixOf` of itself followed by anything. -/
theorem isPrefixOf_append_self (p t : Str) : p.isPrefixOf (p ++ t) = true := by
  induction p with
  | nil => simp [List.isPrefixOf]
  | cons c cs ih => simp [List.isPrefixOf, ih]

/-- Every hex digit is ASCII, whatever the nibble. -/
theorem hexDig_ascii (n : Nat) : (hexDig n).toNat < 128 := by
  have h16 : ∀ i : Fin 16, (hexDig i.val).toNat < 128 := by decide
  by_cases h : n < 16
  · exact h16 ⟨n, h⟩
  · have hlen : hexTable.length ≤ n := by
      have he : hexTable.length = 16 := rfl
      omega
    have hnone : hexTable[n]? = none := by
      rw [List.getElem?_eq_none_iff]
      exact hlen
    simp [hexDig, List.getD, hnone]

/-- Hex digits are injective on nibbles. -/
theorem hexDig_inj {a b : Nat} (ha : a < 16) (hb : b < 16) (h : hexDig a = hexDig b) :
    a = b := by
  have h16 : ∀ i j : Fin 16, hexDig i.val = hexDig j.val → i = j := by decide
  have := h16 ⟨a, ha⟩ ⟨b, hb⟩ h
  exact congrArg Fin.val this

/-- `asciiStr` distributes over append. -/
theorem asciiStr_append (a b : Str) : asciiStr (a ++ b) = (asciiStr a && asciiStr b) := by
  simp [asciiStr, List.all_append]

/-- A hex string is always pure ASCII. -/
theorem asciiStr_hexStr (bs : List Nat) : asciiStr (hexStr bs) = true := by
  induction bs with
  | nil => rfl
  | cons b rest ih =>
    simp only [hexStr, List.map_cons, List.flatten_cons] at *
    rw [asciiStr_append, ih]
    simp [asciiStr, hexDig_ascii]

/-- Every byte produced by `wordBytes` is below 256. -/
theorem wordBytes_lt (w : Nat) : ∀ b ∈ wordBytes w, b < 256 := by
  intro b hb
  simp only [wordBytes, List.mem_cons, List.not_mem_nil, or_false] at hb
  rcases hb with h | h | h | h <;> omega

/-- Every byte of a SHA-256 digest is below 256. -/
theorem sha256_bytes_lt (msg : List Nat) : ∀ b ∈ sha256 msg, b < 256 := by
  intro b hb
  simp only [sha256, wordBytes, List.mem_append, List.mem_cons, List.not_mem_nil,
    or_false] at hb
  rcases hb with h | h | h | h | h | h | h | h | h | h | h | h | h | h | h | h |
    h | h | h | h | h | h | h | h | h | h | h | h | h | h | h | h <;> omega

/-- Hex strings of byte lists (all entries < 256) are injective. -/
theorem hexStr_inj : ∀ {a b : List Nat}, (∀ x ∈ a, x < 256) → (∀ x ∈ b, x < 256) →
    hexStr a = hexStr b → a = b
  | [], [], _, _, _ => rfl
  | [], y :: ys, _, _, h => by simp [hexStr] at h
  | x :: xs, [], _, _, h => by simp [hexStr] at h
  | x :: xs, y :: ys, ha, hb, h => by
    simp only [hexStr, List.map_cons, List.flatten_cons, List.cons_append, List.nil_append,
      List.cons.injEq] at h
    obtain ⟨h1, h2, h3⟩ := h
    have hx := ha x (by simp)
    have hy := hb y (by simp)
    have e1 : x / 16 = y / 16 :=
      hexDig_inj (Nat.div_lt_of_lt_mul (by omega)) (Nat.div_lt_of_lt_mul (by omega)) h1
    have e2 : x % 16 = y % 16 :=
      hexDig_inj (Nat.mod_lt _ (by norm_num)) (Nat.mod_lt _ (by norm_num)) h2
    have exy : x = y := by omega
    have tail := hexStr_inj (fun z hz => ha z (by simp [hz])) (fun z hz => hb z (by simp [hz])) h3
    rw [exy, tail]

/-- The expected signature string is always pure ASCII. -/
theorem asciiStr_expectedSig (payload : List Nat) (secret : Str) :
    asciiStr (expectedSigStr secret payload) = true := by
  rw [expectedSigStr, asciiStr_append, asciiStr_hexStr]
  rfl

/-- A matching signature is accepted: `validate(B, "sha256="+hex(HMAC(K,B)), K)`
is `True`. -/
theorem validate_matching (payload : List Nat) (secret : Str) :
    validate_github_signature payload (expectedSigStr secret payload) secret = .ok true := by
  have hne : (expectedSigStr secret payload).isEmpty = false := rfl
  have hpre : (strL "sha256=").isPrefixOf (expectedSigStr secret payload) = true :=
    isPrefixOf_append_self _ _
  rw [validate_github_signature, hne, hpre]
  simp [pyCompareDigest, asciiStr_expectedSig]

/-- `replaceAllGo` leaves a string without occurrences of the pattern
unchanged, for any fuel. -/
theorem replaceAllGo_no_occurs (p r : Str) : ∀ (s : Str) (fuel : Nat),
    occursIn p s = false → replaceAllGo p r fuel s = s := by
  intro s
  induction s with
  | nil => intro fuel _; cases fuel <;> rfl
  | cons c cs ih =>
    intro fuel h
    simp only [occursIn, Bool.or_eq_false_iff] at h
    cases fuel with
    | zero => rfl
    | succ f =>
      simp only [replaceAllGo, h.1, Bool.and_false, Bool.false_eq_true, if_false,
        List.cons.injEq, true_and]
      exact ih f h.2

/-- Stripping one leading occurrence: when the suffix has no further
occurrence of the pattern, `s.replace(p, r)` on `p ++ t` is `r ++ t`. -/
theorem replaceAll_strip (p r t : Str) (hp : p ≠ []) (h : occursIn p t = false) :
    replaceAll p r (p ++ t) = r ++ t := by
  cases p with
  | nil => exact absurd rfl hp
  | cons c cs =>
    have hpre : (c :: cs).isPrefixOf ((c :: cs) ++ t) = true := isPrefixOf_append_self _ _
    rw [List.cons_append] at hpre
    have hcond : (decide (c :: cs ≠ []) && (c :: cs).isPrefixOf (c :: (cs ++ t))) = true := by
      simp [hpre]
    rw [replaceAll, List.cons_append, List.length_cons]
    rw [replaceAllGo, if_pos hcond]
    rw [← List.cons_append, List.drop_left]
    rw [replaceAllGo_no_occurs _ _ _ _ h]

/-- Any ASCII signature other than the matching one is rejected with
`False` (no exception). -/
theorem validate_ascii_mismatch (payload : List Nat) (secret : Str) (s : Str)
    (hs : asciiStr s = true) (hne : s ≠ expectedSigStr secret payload) :
    validate_github_signature payload s secret = .ok false := by
  rw [validate_github_signature]
  by_cases hpre : (s.isEmpty || !((strL "sha256=").isPrefixOf s)) = true
  · rw [if_pos hpre]
  · rw [if_neg hpre]
    have hx : expectedSigStr secret payload ≠ s := fun h => hne h.symm
    simp [pyCompareDigest, asciiStr_expectedSig, hs, hx]

/-! ### Claim theorems -/

/-- C7: the secret cache fetches at most once per process when fetches
succeed — a set cache is returned without contacting the store; an unset
cache fetches, memoizes on success (so the next call does not fetch), and
on failure re-raises leaving the cache unset (failure is never cached, the
next call fetches again). -/
theorem C7_secret_cache :
    (∀ v fetch, get_webhook_secret (some v) fetch = (.ok v, some v, false)) ∧
    (∀ v, get_webhook_secret none (.ok v) = (.ok v, some v, true)) ∧
    (∀ v fetch, get_webhook_secret (get_webhook_secret none (.ok v)).2.1 fetch =
      (.ok v, some v, false)) ∧
    (get_webhook_secret none (.error ()) = (.error (), none, true)) ∧
    (∀ v, get_webhook_secret (get_webhook_secret none (.error ())).2.1 (.ok v) =
      (.ok v, some v, true)) :=
  ⟨fun _ _ => rfl, fun _ => rfl, fun _ _ => rfl, rfl, fun _ => rfl⟩

/-- C9: the Decommissioner is deterministic — replaying the same
normalized Delete event against an identically-responding environment
produces the identical CodeBuild call sequence; the module keeps no memo
of prior deletions (its only module-level state is read-only
configuration). -/
theorem C9_deterministic_replay (cfg : DestroyCfg) (ok1 ok2 : CBCall → Bool)
    (event : Json) (h : ok1 = ok2) :
    (destroy_branch_handler cfg ok1 event).2 = (destroy_branch_handler cfg ok2 event).2 := by
  rw [h]

/-- Witness for C9 at a concrete Delete event. -/
theorem C9_deterministic_replay_witness :
    ((fun (_ : CBCall) => true) = (fun (_ : CBCall) => true)) ∧
    (destroy_branch_handler ⟨strL "r", strL "a", strL "ro", strL "bu", strL "pre", strL "dev"⟩
        (fun _ => true)
        (.obj [(strL "detail", .obj [(strL "referenceType", .str (strL "branch")),
                                     (strL "referenceName", .str (strL "b"))])])).2 =
      (destroy_branch_handler ⟨strL "r", strL "a", strL "ro", strL "bu", strL "pre", strL "dev"⟩
        (fun _ => true)
        (.obj [(strL "detail", .obj [(strL "referenceType", .str (strL "branch")),
                                     (strL "referenceName", .str (strL "b"))])])).2 :=
  ⟨rfl, C9_deterministic_replay _ _ _ _ rfl⟩

/-- C8: a Delete event with `referenceType` `"branch"` but an empty or
missing `referenceName` is dropped — the handler returns normally and
issues no CodeBuild call. -/
theorem C8_empty_branch_no_calls (cfg : DestroyCfg) (ok : CBCall → Bool)
    (dkvs : List (Str × Json))
    (hrt : jlookup dkvs (strL "referenceType") = some (.str (strL "branch")))
    (hrn : jlookup dkvs (strL "referenceName") = none ∨
           jlookup dkvs (strL "referenceName") = some (.str [])) :
    destroy_branch_handler cfg ok (.obj [(strL "detail", .obj dkvs)]) = (.ok (), []) := by
  have hdet : (jlookup [(strL "detail", Json.obj dkvs)] (strL "detail")).getD (.obj []) =
      Json.obj dkvs := rfl
  simp only [destroy_branch_handler, hdet, hrt]
  rcases hrn with h | h <;> simp [h, truthyOpt, pythonTruthy]

/-- Witness for C8 at a concrete event with an empty branch name. -/
theorem C8_empty_branch_no_calls_witness :
    jlookup [(strL "referenceType", Json.str (strL "branch")),
             (strL "referenceName", Json.str [])] (strL "referenceType") =
        some (.str (strL "branch")) ∧
    destroy_branch_handler ⟨strL "r", strL "a", strL "ro", strL "bu", strL "pre", strL "dev"⟩
      (fun _ => true)
      (.obj [(strL "detail", .obj [(strL "referenceType", .str (strL "branch")),
                                   (strL "referenceName", .str [])])]) = (.ok (), []) :=
  ⟨rfl, C8_empty_branch_no_calls _ _ _ rfl (Or.inr rfl)⟩

/-- C2 (amended): for a Delete event with `referenceType` `"branch"`, a
non-empty string `referenceName` `B` and a `repositoryName` on which the
GitHub-detection membership test does not raise, when the create, start
and first delete CodeBuild calls succeed the handler issues exactly
create-destroy, start-destroy, delete-destroy, delete-create in that
order — the final delete of the create job is issued whether or not that
project exists (its own outcome does not change the sequence). -/
theorem C2_destroy_sequence (cfg : DestroyCfg) (ok : CBCall → Bool)
    (dkvs : List (Str × Json)) (B : Str) (g : Bool)
    (hrt : jlookup dkvs (strL "referenceType") = some (.str (strL "branch")))
    (hrn : jlookup dkvs (strL "referenceName") = some (.str B))
    (hB : B ≠ [])
    (hrepo : slashInRepo (jlookup dkvs (strL "repositoryName")) = .ok g)
    (h1 : ok (CBCall.createProject (cfg.cbNamePre ++ strL "-" ++ B ++ strL "-destroy")
            (cfg.bucket ++ strL "/" ++ B ++ strL "/" ++
              (cfg.cbNamePre ++ strL "-" ++ B ++ strL "-create") ++ strL "/")
            (generate_build_spec cfg B)) = true)
    (h2 : ok (CBCall.startBuild (cfg.cbNamePre ++ strL "-" ++ B ++ strL "-destroy")) = true)
    (h3 : ok (CBCall.deleteProject (cfg.cbNamePre ++ strL "-" ++ B ++ strL "-destroy")) = true) :
    (destroy_branch_handler cfg ok (.obj [(strL "detail", .obj dkvs)])).2.map callOp =
      specDestroySeq cfg B := by
  have hdet : (jlookup [(strL "detail", Json.obj dkvs)] (strL "detail")).getD (.obj []) =
      Json.obj dkvs := rfl
  have hBe : B.isEmpty = false := by
    cases B with
    | nil => exact absurd rfl hB
    | cons _ _ => rfl
  simp only [destroy_branch_handler, hdet, hrt, hrn, hrepo, truthyOpt, pythonTruthy, hBe,
    Option.getD_some, pyStr, Bool.not_false, Bool.not_true, Bool.false_eq_true, if_false,
    if_true, reduceIte, h1, h2, h3]
  cases hok4 : ok (CBCall.deleteProject (cfg.cbNamePre ++ strL "-" ++ B ++ strL "-create")) <;>
    simp [hok4, callOp, specDestroySeq]

/-- Witness for C2 at a concrete Delete event for branch `"b"` of
repository `"org/repo"`, with an all-accepting environment. -/
theorem C2_destroy_sequence_witness :
    jlookup [(strL "referenceType", Json.str (strL "branch")),
             (strL "referenceName", Json.str (strL "b")),
             (strL "repositoryName", Json.str (strL "org/repo"))] (strL "referenceName") =
        some (.str (strL "b")) ∧
    (destroy_branch_handler ⟨strL "r", strL "a", strL "ro", strL "bu", strL "pre", strL "dev"⟩
        (fun _ => true)
        (.obj [(strL "detail",
                .obj [(strL "referenceType", Json.str (strL "branch")),
                      (strL "referenceName", Json.str (strL "b")),
                      (strL "repositoryName", Json.str (strL "org/repo"))])])).2.map callOp =
      specDestroySeq ⟨strL "r", strL "a", strL "ro", strL "bu", strL "pre", strL "dev"⟩
        (strL "b") :=
  ⟨rfl, C2_destroy_sequence _ _ _ _ true rfl rfl (by decide) rfl rfl rfl rfl⟩

/-- Counterexample to C2 as stated: a Delete event with `referenceType`
`"branch"` and non-empty `referenceName` `"b"` whose `repositoryName` is
the number `5` makes the handler raise `TypeError` in the membership test
`'/' in repo_name` before any CodeBuild call — no call at all is issued,
not the claimed four-call sequence. -/
theorem C2_destroy_sequence_cex :
    (destroy_branch_handler ⟨strL "r", strL "a", strL "ro", strL "bu", strL "pre", strL "dev"⟩
        (fun _ => true)
        (.obj [(strL "detail",
                .obj [(strL "referenceType", Json.str (strL "branch")),
                      (strL "referenceName", Json.str (strL "b")),
                      (strL "repositoryName", Json.num 5)])])) = (.error .typeError, []) ∧
    specDestroySeq ⟨strL "r", strL "a", strL "ro", strL "bu", strL "pre", strL "dev"⟩
        (strL "b") ≠ [] :=
  ⟨rfl, by decide⟩

/-- `mkExplicitEvent` only ever succeeds with the event type it was given. -/
theorem mkExplicitEvent_eventType (et : Str) (kvs : List (Str × Json)) (e : GhEvent)
    (h : mkExplicitEvent et kvs = .ok (some e)) : e.eventType = et := by
  unfold mkExplicitEvent at h
  split at h
  · exact Except.noConfusion h
  · split at h
    · exact Except.noConfusion h
    · split at h
      · exact Except.noConfusion h
      · injection h with h1
        injection h1 with h2
        rw [← h2]

/-- `mkPushEvent` only ever succeeds with the event type it was given. -/
theorem mkPushEvent_eventType (et bn : Str) (kvs : List (Str × Json)) (e : GhEvent)
    (h : mkPushEvent et bn kvs = .ok (some e)) : e.eventType = et := by
  unfold mkPushEvent at h
  split at h
  · exact Except.noConfusion h
  · split at h
    · exact Except.noConfusion h
    · split at h
      · exact Except.noConfusion h
      · injection h with h1
        injection h1 with h2
        rw [← h2]

/-- Events produced by the push branch are create or delete events. -/
theorem pushBranch_eventType (kvs : List (Str × Json)) (e : GhEvent)
    (h : pushBranch kvs = .ok (some e)) :
    e.eventType = strL "create" ∨ e.eventType = strL "delete" := by
  unfold pushBranch at h
  split_ifs at h
  · split at h
    · split_ifs at h
      · exact Or.inl (mkPushEvent_eventType _ _ _ _ h)
      · exact Option.noConfusion (Except.ok.inj h)
    · exact Except.noConfusion h
  · split at h
    · split_ifs at h
      · exact Or.inr (mkPushEvent_eventType _ _ _ _ h)
      · exact Option.noConfusion (Except.ok.inj h)
    · exact Except.noConfusion h
  · exact Option.noConfusion (Except.ok.inj h)

/-- C5 (amended): every event the Normalizer produces has an `eventType`
of `create` or `delete`; non-emptiness of `referenceName` is NOT
guaranteed (see the counterexample). -/
theorem C5_eventType_invariant (headers : List (Str × Str)) (body : Json) (e : GhEvent)
    (h : parse_github_event headers body = .ok (some e)) :
    e.eventType = strL "create" ∨ e.eventType = strL "delete" := by
  simp only [parse_github_event] at h
  split_ifs at h
  · -- X-GitHub-Event: create
    split at h
    · split at h
      · split_ifs at h
        · exact Or.inl (mkExplicitEvent_eventType _ _ _ h)
        · exact Option.noConfusion (Except.ok.inj h)
      · exact Option.noConfusion (Except.ok.inj h)
    · exact Except.noConfusion h
  · -- X-GitHub-Event: delete
    split at h
    · split at h
      · split_ifs at h
        · exact Or.inr (mkExplicitEvent_eventType _ _ _ h)
        · exact Option.noConfusion (Except.ok.inj h)
      · exact Option.noConfusion (Except.ok.inj h)
    · exact Except.noConfusion h
  · -- X-GitHub-Event: push
    split at h
    · exact pushBranch_eventType _ _ h
    · exact Except.noConfusion h
  · exact Option.noConfusion (Except.ok.inj h)

/-- Witness for C5 at a concrete explicit create event. -/
theorem C5_eventType_invariant_witness :
    parse_github_event [(strL "X-GitHub-Event", strL "create")]
        (.obj [(strL "ref_type", Json.str (strL "branch")),
               (strL "ref", Json.str (strL "feature"))]) =
      .ok (some ⟨strL "create", strL "branch", some (.str (strL "feature")),
                 none, none, none⟩) ∧
    ((⟨strL "create", strL "branch", some (.str (strL "feature")), none, none, none⟩ :
        GhEvent).eventType = strL "create" ∨
     (⟨strL "create", strL "branch", some (.str (strL "feature")), none, none, none⟩ :
        GhEvent).eventType = strL "delete") :=
  ⟨rfl, C5_eventType_invariant [(strL "X-GitHub-Event", strL "create")]
    (.obj [(strL "ref_type", Json.str (strL "branch")),
           (strL "ref", Json.str (strL "feature"))]) _ rfl⟩

/-- Counterexample to C5 as stated: an explicit create event whose body
has `ref_type` `"branch"` but no `ref` key normalizes to a produced event
whose `referenceName` is `None` — not a non-empty string. -/
theorem C5_eventType_invariant_cex :
    (match parse_github_event [(strL "X-GitHub-Event", strL "create")]
        (.obj [(strL "ref_type", Json.str (strL "branch"))]) with
     | .ok (some e) => some e.referenceName
     | _ => none) = some none := rfl

/-- `mkPushEvent` rewritten by the outcomes of its three field reads. -/
theorem mkPushEvent_eq (et bn : Str) (kvs : List (Str × Json)) (rn sd ts : Option Json)
    (hrep : repoField kvs (strL "full_name") = .ok rn)
    (hsen : senderField kvs = .ok sd)
    (hts : repoField kvs (strL "updated_at") = .ok ts) :
    mkPushEvent et bn kvs = .ok (some ⟨et, strL "branch", some (.str bn), rn, sd, ts⟩) := by
  unfold mkPushEvent
  rw [hrep, hsen, hts]

/-- C4 (amended): a push payload with a truthy `created` (resp. falsy
`created` and truthy `deleted`) flag and `ref = "refs/heads/" ++ rest`
normalizes to a Create (resp. Delete) event whose `referenceName` is
`rest`, PROVIDED `rest` itself contains no further occurrence of
`"refs/heads/"` — the code computes the name with
`ref.replace('refs/heads/', '')`, which removes every occurrence, not
just the leading one (see the counterexample). -/
theorem C4_push_normalization (headers : List (Str × Str)) (kvs : List (Str × Json))
    (rest : Str) (rn sd ts : Option Json)
    (hhdr : hget headers (strL "X-GitHub-Event")
              (hget headers (strL "x-github-event") []) = strL "push")
    (href : jlookup kvs (strL "ref") = some (.str (strL "refs/heads/" ++ rest)))
    (hno : occursIn (strL "refs/heads/") rest = false)
    (hrep : repoField kvs (strL "full_name") = .ok rn)
    (hsen : senderField kvs = .ok sd)
    (hts : repoField kvs (strL "updated_at") = .ok ts) :
    (truthyOpt (jlookup kvs (strL "created")) = true →
      parse_github_event headers (.obj kvs) =
        .ok (some ⟨strL "create", strL "branch", some (.str rest), rn, sd, ts⟩)) ∧
    (truthyOpt (jlookup kvs (strL "created")) = false →
     truthyOpt (jlookup kvs (strL "deleted")) = true →
      parse_github_event headers (.obj kvs) =
        .ok (some ⟨strL "delete", strL "branch", some (.str rest), rn, sd, ts⟩)) := by
  have hrepl : replaceAll (strL "refs/heads/") [] (strL "refs/heads/" ++ rest) = rest := by
    simpa using replaceAll_strip (strL "refs/heads/") [] rest (by decide) hno
  have hpre2 : (strL "refs/heads/").isPrefixOf (strL "refs/heads/" ++ rest) = true :=
    isPrefixOf_append_self _ _
  constructor
  · intro hc
    simp only [parse_github_event, hhdr]
    rw [if_neg (by decide), if_neg (by decide), if_pos trivial]
    simp only [pushBranch, hc, if_true, href, Option.getD_some, hpre2]
    rw [hrepl]
    exact mkPushEvent_eq _ _ _ _ _ _ hrep hsen hts
  · intro hc hd
    simp only [parse_github_event, hhdr]
    rw [if_neg (by decide), if_neg (by decide), if_pos trivial]
    simp only [pushBranch, hc, hd, Bool.false_eq_true, if_false, if_true, href,
      Option.getD_some, hpre2]
    rw [hrepl]
    exact mkPushEvent_eq _ _ _ _ _ _ hrep hsen hts

/-- Witness for C4: `ref = "refs/heads/feature-x"` with `created: true`
normalizes to a Create event named `feature-x`. -/
theorem C4_push_normalization_witness :
    occursIn (strL "refs/heads/") (strL "feature-x") = false ∧
    (truthyOpt (jlookup [(strL "created", Json.bool true),
                         (strL "ref", Json.str (strL "refs/heads/feature-x"))]
        (strL "created")) = true →
      parse_github_event [(strL "X-GitHub-Event", strL "push")]
          (.obj [(strL "created", Json.bool true),
                 (strL "ref", Json.str (strL "refs/heads/feature-x"))]) =
        .ok (some ⟨strL "create", strL "branch", some (.str (strL "feature-x")),
                   none, none, none⟩)) :=
  ⟨by decide,
   (C4_push_normalization [(strL "X-GitHub-Event", strL "push")]
      [(strL "created", Json.bool true), (strL "ref", Json.str (strL "refs/heads/feature-x"))]
      (strL "feature-x") none none none rfl rfl
      (by decide) rfl rfl rfl).1⟩

/-- Counterexample to C4 as stated: for the push payload with
`created: true` and `ref = "refs/heads/refs/heads/x"`, the code's
`str.replace` removes both occurrences and yields `referenceName "x"`,
whereas the suffix after the leading prefix is `"refs/heads/x"`. -/
theorem C4_push_normalization_cex :
    (match parse_github_event [(strL "X-GitHub-Event", strL "push")]
        (.obj [(strL "created", Json.bool true),
               (strL "ref", Json.str (strL "refs/heads/refs/heads/x"))]) with
     | .ok (some e) => e.referenceName
     | _ => none) = some (.str (strL "x")) ∧
    strL "x" ≠ strL "refs/heads/x" :=
  ⟨rfl, by decide⟩

/-- C10: when a push payload carries `created: true` and `deleted: true`
simultaneously, the `created` branch is taken first — the payload
normalizes to a Create event (never Delete, never not-applicable). -/
theorem C10_created_precedence (headers : List (Str × Str)) (kvs : List (Str × Json))
    (rest : Str) (rn sd ts : Option Json)
    (hhdr : hget headers (strL "X-GitHub-Event")
              (hget headers (strL "x-github-event") []) = strL "push")
    (hcr : jlookup kvs (strL "created") = some (.bool true))
    (hdl : jlookup kvs (strL "deleted") = some (.bool true))
    (href : jlookup kvs (strL "ref") = some (.str (strL "refs/heads/" ++ rest)))
    (hrep : repoField kvs (strL "full_name") = .ok rn)
    (hsen : senderField kvs = .ok sd)
    (hts : repoField kvs (strL "updated_at") = .ok ts) :
    parse_github_event headers (.obj kvs) =
      .ok (some ⟨strL "create", strL "branch",
            some (.str (replaceAll (strL "refs/heads/") [] (strL "refs/heads/" ++ rest))),
            rn, sd, ts⟩) := by
  have hpre2 : (strL "refs/heads/").isPrefixOf (strL "refs/heads/" ++ rest) = true :=
    isPrefixOf_append_self _ _
  have hc : truthyOpt (jlookup kvs (strL "created")) = true := by rw [hcr]; rfl
  simp only [parse_github_event, hhdr]
  rw [if_neg (by decide), if_neg (by decide), if_pos trivial]
  simp only [pushBranch, hc, if_true, href, Option.getD_some, hpre2]
  exact mkPushEvent_eq _ _ _ _ _ _ hrep hsen hts

/-- Witness for C10: `created` and `deleted` both `true` on
`refs/heads/demo` yields the Create event for `demo`. -/
theorem C10_created_precedence_witness :
    jlookup [(strL "created", Json.bool true), (strL "deleted", Json.bool true),
             (strL "ref", Json.str (strL "refs/heads/demo"))] (strL "deleted") =
        some (.bool true) ∧
    parse_github_event [(strL "X-GitHub-Event", strL "push")]
        (.obj [(strL "created", Json.bool true), (strL "deleted", Json.bool true),
               (strL "ref", Json.str (strL "refs/heads/demo"))]) =
      .ok (some ⟨strL "create", strL "branch",
            some (.str (replaceAll (strL "refs/heads/") []
                         (strL "refs/heads/" ++ strL "demo"))),
            none, none, none⟩) :=
  ⟨rfl,
   C10_created_precedence [(strL "X-GitHub-Event", strL "push")]
     [(strL "created", Json.bool true), (strL "deleted", Json.bool true),
      (strL "ref", Json.str (strL "refs/heads/demo"))]
     (strL "demo") none none none rfl rfl rfl rfl rfl rfl rfl⟩

/-- C3 (amended): when the transport decoding of the body succeeds and
the signing secret is available, a request whose signature header is
missing, lacks the `sha256=` prefix, or is an ASCII mismatch (i.e. the
validator returns `False`) is answered 401 with a JSON error body, and
nothing is published to EventBridge. -/
theorem C3_invalid_signature_401 (busName : Str) (fetch : Except Unit Str) (pubOk : Bool)
    (cache : Option Str) (ev : ApiEvent) (s k : Str) (c' : Option Str) (fb : Bool)
    (hdec : decodeBody ev.isBase64Encoded (ev.body.getD (strL "\x7b\x7d")) = some s)
    (hsec : get_webhook_secret cache fetch = (.ok k, c', fb))
    (hval : validate_github_signature (utf8Encode s) (sigHeader ev.headers) k = .ok false) :
    webhook_handler busName fetch pubOk cache ev =
      ⟨401, msgBody "Invalid signature", [], c'⟩ := by
  simp only [webhook_handler, hdec, hsec, hval]

/-- Witness for C3: a request with no signature header at all. -/
theorem C3_invalid_signature_401_witness :
    validate_github_signature (utf8Encode (strL "\x7b\x7d")) (sigHeader []) (strL "k") =
        .ok false ∧
    webhook_handler (strL "bus") (.ok (strL "k")) true (some (strL "k"))
        ⟨[], some (strL "\x7b\x7d"), false⟩ =
      ⟨401, msgBody "Invalid signature", [], some (strL "k")⟩ :=
  ⟨rfl, C3_invalid_signature_401 (strL "bus") (.ok (strL "k")) true (some (strL "k"))
    ⟨[], some (strL "\x7b\x7d"), false⟩ (strL "\x7b\x7d") (strL "k") (some (strL "k")) false
    rfl rfl rfl⟩

/-- Counterexample to C3 as stated: a base64-flagged request whose body
`"a"` cannot be decoded is answered 500, not 401, even though its
signature header is missing — the decode error is raised before the
signature is examined. -/
theorem C3_invalid_signature_401_cex :
    sigHeader [] = [] ∧
    (webhook_handler (strL "bus") (.ok (strL "k")) true (some (strL "k"))
        ⟨[], some (strL "a"), true⟩).statusCode = 500 ∧
    (500 : Nat) ≠ 401 :=
  ⟨rfl, rfl, by decide⟩

/-- C6: a request that passes signature validation but whose body is not
parseable as JSON is answered 400 with a JSON error body, and nothing is
normalized or published. -/
theorem C6_invalid_json_400 (busName : Str) (fetch : Except Unit Str) (pubOk : Bool)
    (cache : Option Str) (ev : ApiEvent) (s k : Str) (c' : Option Str) (fb : Bool)
    (hdec : decodeBody ev.isBase64Encoded (ev.body.getD (strL "\x7b\x7d")) = some s)
    (hsec : get_webhook_secret cache fetch = (.ok k, c', fb))
    (hval : validate_github_signature (utf8Encode s) (sigHeader ev.headers) k = .ok true)
    (hjson : jsonLoads s = none) :
    webhook_handler busName fetch pubOk cache ev =
      ⟨400, msgBody "Invalid JSON", [], c'⟩ := by
  simp only [webhook_handler, hdec, hsec, hval, hjson]

/-- Witness for C6: a correctly signed request whose body is the single
character `"{"`. -/
theorem C6_invalid_json_400_witness :
    validate_github_signature (utf8Encode (strL "\x7b"))
        (sigHeader [(strL "X-Hub-Signature-256",
                     expectedSigStr (strL "k") (utf8Encode (strL "\x7b")))])
        (strL "k") = .ok true ∧
    jsonLoads (strL "\x7b") = none ∧
    webhook_handler (strL "bus") (.ok (strL "k")) true (some (strL "k"))
        ⟨[(strL "X-Hub-Signature-256", expectedSigStr (strL "k") (utf8Encode (strL "\x7b")))],
         some (strL "\x7b"), false⟩ =
      ⟨400, msgBody "Invalid JSON", [], some (strL "k")⟩ :=
  ⟨validate_matching _ _, rfl,
   C6_invalid_json_400 (strL "bus") (.ok (strL "k")) true (some (strL "k"))
     ⟨[(strL "X-Hub-Signature-256", expectedSigStr (strL "k") (utf8Encode (strL "\x7b")))],
      some (strL "\x7b"), false⟩ (strL "\x7b") (strL "k") (some (strL "k")) false
     rfl rfl (validate_matching _ _) rfl⟩

/-- Every byte of an HMAC-SHA256 digest is below 256 (it is a SHA-256
digest). -/
theorem hmac_bytes_lt (key msg : List Nat) : ∀ b ∈ hmacSha256 key msg, b < 256 := by
  simp only [hmacSha256]
  exact sha256_bytes_lt _

/-- C1 (amended): the validator accepts exactly the matching signature —
`validate(B, "sha256="+hex(HMAC(K,B)), K)` is `True`; any other ASCII
signature (in particular any single-bit flip of the matching one that
stays ASCII) yields `False`; and a body whose HMAC digest differs (which
a single bit flip is believed to guarantee, but which is a cryptographic
property of SHA-256 outside the model) yields `False` against the
original signature.  A bit flip that makes the signature non-ASCII does
not return `False` but raises `TypeError` (see the counterexample). -/
theorem C1_signature_validation (B : List Nat) (K : Str) (S : Str) (B' : List Nat)
    (hS : asciiStr S = true) (hSne : S ≠ expectedSigStr K B)
    (hB' : hmacSha256 (utf8Encode K) B' ≠ hmacSha256 (utf8Encode K) B) :
    validate_github_signature B (expectedSigStr K B) K = .ok true ∧
    validate_github_signature B S K = .ok false ∧
    validate_github_signature B' (expectedSigStr K B) K = .ok false := by
  refine ⟨validate_matching _ _, validate_ascii_mismatch _ _ _ hS hSne, ?_⟩
  apply validate_ascii_mismatch _ _ _ (asciiStr_expectedSig _ _)
  intro h
  apply hB'
  have hx : hexStr (hmacSha256 (utf8Encode K) B) = hexStr (hmacSha256 (utf8Encode K) B') := by
    rw [expectedSigStr, expectedSigStr] at h
    exact List.append_cancel_left h
  exact (hexStr_inj (hmac_bytes_lt _ _) (hmac_bytes_lt _ _) hx.symm)

/-- Witness for C1 with body `b""`, secret `"k"`, the wrong ASCII
signature `"x"` and the one-byte body `b"\x00"`. -/
theorem C1_signature_validation_witness :
    asciiStr (strL "x") = true ∧
    strL "x" ≠ expectedSigStr (strL "k") [] ∧
    hmacSha256 (utf8Encode (strL "k")) [0] ≠ hmacSha256 (utf8Encode (strL "k")) [] ∧
    (validate_github_signature [] (expectedSigStr (strL "k") []) (strL "k") = .ok true ∧
     validate_github_signature [] (strL "x") (strL "k") = .ok false ∧
     validate_github_signature [0] (expectedSigStr (strL "k") []) (strL "k") = .ok false) :=
  ⟨by decide, by decide, by decide,
   C1_signature_validation [] (strL "k") (strL "x") [0] (by decide) (by decide) (by decide)⟩

/-- Counterexample to C1 as stated: flipping the top bit of the first hex
character of the matching signature for body `b""` under secret `"k"`
makes the signature non-ASCII, so `hmac.compare_digest` raises
`TypeError` — the validator does not return `False`, it raises. -/
theorem C1_signature_validation_cex :
    validate_github_signature []
        (flipStrBit 7 7 (expectedSigStr (strL "k") [])) (strL "k") = .error .typeError ∧
    (Except.error .typeError : Except PyExc Bool) ≠ .ok false :=
  ⟨rfl, fun h => Except.noConfusion h⟩
